import Mathlib

set_option autoImplicit false

/-!
Shallow embedding of the pysmu Cython binding (`bindings/python/pysmu/libsmu.pyx`).

The binding wraps an underlying C++ `smu::Session` / `smu::Device` pair whose
implementation is not part of the binding source; every underlying call is
modelled as an oracle (a function or outcome value supplied as an argument), so
the definitions below capture exactly the Python-level control flow of the
binding: argument validation, exception translation, the `dropped` overflow
swallowing, buffer transformations, and result shaping.

Exception semantics follow Python 2 (the binding vendors a Python 2 enum
backport and reads `e.message`, which only exists there).
-/

namespace Pysmu

/-- Opaque measurement values: the binding only moves `float` sample values
around, never computes with them, so they are represented by an opaque
(but decidable) carrier. -/
abbrev FVal := Int

/-- One raw sample as stored by the C++ side: an `array[float, four]`
`x` indexed `x[0] .. x[3]`. -/
structure RawSample where
  v0 : FVal
  v1 : FVal
  v2 : FVal
  v3 : FVal
deriving DecidableEq, Repr

/-- One Python-level sample, as built by `Device.read`:
`((x[0], x[1]), (x[2], x[3]))`. -/
abbrev Sample := (FVal × FVal) × (FVal × FVal)

/-- The comprehension body of `Device.read`. -/
def toSample (x : RawSample) : Sample := ((x.v0, x.v1), (x.v2, x.v3))

/-- Python exceptions the binding can raise. `deviceError` carries an optional
errcode because the binding sometimes raises `DeviceError(msg)` and sometimes
`DeviceError(msg, errcode)`. -/
inductive PyErr where
  | valueError (msg : String)
  | sessionError (msg : String) (errcode : Int)
  | deviceError (msg : String) (errcode : Option Int)
  | ioError (errno : Int) (msg : String)
  | runtimeError (msg : String)
deriving DecidableEq, Repr

/-- Python 2 `str.startswith`. -/
def pyStartsWith (s pre : String) : Bool := pre.data.isPrefixOf s.data

/-- `str(x).encode()` for a string `x` (byte values of its characters). -/
def pyEncode (s : String) : List Nat := s.data.map Char.toNat

/-- The `Mode` enum of the binding. -/
inductive Mode where
  | HI_Z
  | SVMI
  | SIMV
deriving DecidableEq, Repr

/-- The integer value of each `Mode` member. -/
def Mode.value : Mode → Int
  | .HI_Z => 0
  | .SVMI => 1
  | .SIMV => 2

/-- `Mode(v)`: the member with value `v`, if any. -/
def Mode.ofValue (v : Int) : Option Mode :=
  if v = 0 then some .HI_Z
  else if v = 1 then some .SVMI
  else if v = 2 then some .SIMV
  else none

/-- The `LED` enum of the binding. -/
inductive LED where
  | red
  | green
  | blue
  | all
deriving DecidableEq, Repr

/-- The integer value of each `LED` member. -/
def LED.value : LED → Nat
  | .red => 47
  | .green => 29
  | .blue => 28
  | .all => 0

/-- The members of `LED` in definition order, as iterated by `for l in LED`. -/
def LED.members : List LED := [.red, .green, .blue, .all]

/-- A call issued by the binding to the underlying C++ object, with the
arguments as actually passed. Traces of these calls let theorems state that a
given code path performs no (or exactly these) underlying calls. -/
inductive UCall where
  | configure (sample_rate : Int)
  | run (samples : Int)
  | start (samples : Int)
  | set_mode (channel : Nat) (mode : Int)
  | ctrl_transfer (bm_request_type b_request wValue wIndex : Nat)
      (data : List Nat) (wLength timeout : Nat)
deriving DecidableEq, Repr

/-! ## Session -/

/-- `Session.configure(sample_rate)`: rejects a negative rate with
`ValueError` before calling the underlying `configure`, otherwise raises
`SessionError` on a nonzero errcode. `ucfg` is the underlying
`smu::Session::configure`, returning its errcode. -/
def Session.configure (ucfg : Int → Int) (sample_rate : Int) :
    Except PyErr Unit × List UCall :=
  if sample_rate < 0 then
    (.error (.valueError s!"invalid sample rate: {sample_rate}"), [])
  else
    let errcode := ucfg sample_rate
    if errcode ≠ 0 then
      (.error (.sessionError "failed configuring device" errcode), [.configure sample_rate])
    else
      (.ok (), [.configure sample_rate])

/-- `Session.run(samples)`: rejects a negative count with `ValueError` before
calling the underlying `run`, otherwise raises `SessionError` on a nonzero
errcode. -/
def Session.run (urun : Int → Int) (samples : Int) :
    Except PyErr Unit × List UCall :=
  if samples < 0 then
    (.error (.valueError s!"invalid number of samples: {samples}"), [])
  else
    let errcode := urun samples
    if errcode ≠ 0 then
      (.error (.sessionError "failed running session stream" errcode), [.run samples])
    else
      (.ok (), [.run samples])

/-- `Session.start(samples)`: rejects a negative count with `ValueError`
before calling the underlying `start`, otherwise raises `SessionError` on a
nonzero errcode. -/
def Session.start (ustart : Int → Int) (samples : Int) :
    Except PyErr Unit × List UCall :=
  if samples < 0 then
    (.error (.valueError s!"invalid number of samples: {samples}"), [])
  else
    let errcode := ustart samples
    if errcode ≠ 0 then
      (.error (.sessionError "failed starting session stream" errcode), [.start samples])
    else
      (.ok (), [.start samples])

/-- Modelled from the spec: the underlying C++ `smu::Session::end` (its
implementation is not under the binding source) reports failure through its
integer return code — "failures are swallowed by cleanup logic but reported to
explicit callers". `uend` is that return code, delivered as the value of a
non-throwing call. -/
def cppEnd (uend : Int) : Except PyErr Int := .ok uend

/-- `Session.end()` (named `endSession` because `end` is a Lean keyword):
calls the underlying end and raises `SessionError` on a nonzero errcode. -/
def Session.endSession (uend : Int) : Except PyErr Unit :=
  match cppEnd uend with
  | .error e => .error e
  | .ok errcode =>
      if errcode ≠ 0 then .error (.sessionError "failed ending session stream" errcode)
      else .ok ()

/-- `Session.__dealloc__`: runs the underlying end inside
`try: ... except SessionError: pass`, discarding the return code. -/
def Session.dealloc (uend : Int) : Except PyErr Unit :=
  match cppEnd uend with
  | .ok _ => .ok ()
  | .error e =>
      match e with
      | .sessionError _ _ => .ok ()
      | e2 => .error e2

/-! ## Device: read / write -/

/-- Outcome of the underlying `smu::Device::read(buf, n, timeout)`: either it
returns normally (filling `buf` and returning `ret`), or it raises a
`SystemError`, or a `RuntimeError` (with `buf` holding whatever was written
before the throw). -/
inductive CppReadOutcome where
  | ret (buf : List RawSample) (ret : Int)
  | sysError (msg : String)
  | runtimeError (msg : String) (buf : List RawSample)
deriving Repr

/-- Outcome of the underlying `smu::Device::write(buf, channel, cyclic)`. -/
inductive CppWriteOutcome where
  | ret (errcode : Int)
  | sysError (msg : String)
  | runtimeError (msg : String)
deriving Repr

/-- `Device.read(num_samples, timeout)`: translates `SystemError` to
`DeviceError`, swallows `RuntimeError`s whose message starts with
`dropped ` (leaving `ret` at its initialisation `0`), raises `DeviceError`
on a negative return, and reshapes each raw sample into a pair of
per-channel pairs. `uread` is the underlying `smu::Device::read`, applied to
the `num_samples` and `timeout` arguments. -/
def Device.read (uread : Nat → Int → CppReadOutcome) (num_samples : Nat)
    (timeout : Int) : Except PyErr (List Sample) :=
  match uread num_samples timeout with
  | .sysError msg => .error (.deviceError msg none)
  | .runtimeError msg buf =>
      if pyStartsWith msg "dropped " then
        .ok (buf.map toSample)
      else
        .error (.runtimeError msg)
  | .ret buf r =>
      if r < 0 then .error (.deviceError "failed reading from device" (some r))
      else .ok (buf.map toSample)

/-- `Device.get_samples(num_samples)` is literally `self.read(num_samples, -1)`. -/
def Device.get_samples (uread : Nat → Int → CppReadOutcome) (num_samples : Nat) :
    Except PyErr (List Sample) :=
  Device.read uread num_samples (-1)

/-- `Device.write(data, channel, cyclic)`. The local `cdef int errcode` is
NOT initialised; `errcodeInit` is the stale value it holds if the underlying
call raises a swallowed `dropped ` RuntimeError before any assignment to it,
after which the binding still evaluates `if errcode < 0`. `uwrite` is the
underlying `smu::Device::write` applied to the call's arguments. -/
def Device.write (uwrite : List FVal → Nat → Bool → CppWriteOutcome)
    (errcodeInit : Int) (data : List FVal) (channel : Nat) (cyclic : Bool) :
    Except PyErr Unit :=
  match uwrite data channel cyclic with
  | .sysError msg => .error (.deviceError msg none)
  | .runtimeError msg =>
      if pyStartsWith msg "dropped " then
        if errcodeInit < 0 then
          .error (.deviceError "failed writing to device" (some errcodeInit))
        else
          .ok ()
      else
        .error (.runtimeError msg)
  | .ret errcode =>
      if errcode < 0 then .error (.deviceError "failed writing to device" (some errcode))
      else .ok ()

/-- Modelled from the spec: the underlying C++ `smu::Device::read` with
`timeout == -1` (implementation not under the binding source) "blocks until
exactly `num_samples` are available or the session is cancelled/ended";
on cancellation it returns the at-most-`num_samples` samples available.
`supply` enumerates the device's sample stream and `avail` is how many
samples were produced before a cancellation. -/
def cppReadBlocking (supply : Nat → RawSample) (cancelled : Bool) (avail : Nat) :
    Nat → Int → CppReadOutcome :=
  fun n _timeout =>
    if cancelled then
      .ret ((List.range (min avail n)).map supply) ((min avail n : Nat) : Int)
    else
      .ret ((List.range n).map supply) ((n : Nat) : Int)

/-! ## Device: control transfers and LEDs -/

/-- The underlying `smu::Device::ctrl_transfer`, taking the arguments as the
binding passes them (request type, request, value, index, data buffer,
length, timeout) and producing the integer result together with the contents
of the data buffer after the call (the transport writes received bytes into
the caller's buffer on IN transfers). -/
abbrev CtrlOracle := Nat → Nat → Nat → Nat → List Nat → Nat → Nat → Int × List Nat

/-- Result of a successful `Device.ctrl_transfer`: the byte count for an OUT
transfer, or the received buffer (`map(ord, data)`) for an IN transfer. -/
inductive CtrlResult where
  | transferred (n : Int)
  | payload (bytes : List Nat)
deriving DecidableEq, Repr

/-- `Device.ctrl_transfer(...)`: encodes `data`; for IN transfers (bit `0x80`
set) replaces a literal `"0"` buffer by `wLength` zero bytes, for OUT
transfers forces `wLength` to `0`; performs the underlying transfer; raises
`IOError(abs(r), ...)` on a negative result; returns the received buffer
(IN) or the byte count (OUT). The second component is the trace of
underlying calls. -/
def Device.ctrl_transfer (ut : CtrlOracle) (bm_request_type b_request wValue wIndex : Nat)
    (data : String) (wLength timeout : Nat) :
    Except PyErr CtrlResult × List UCall :=
  let dataB := pyEncode data
  let dataB2 :=
    if bm_request_type &&& 0x80 = 0x80 ∧ dataB = pyEncode "0" then
      List.replicate wLength 0
    else dataB
  let wLen2 := if bm_request_type &&& 0x80 = 0x80 then wLength else 0
  let out := ut bm_request_type b_request wValue wIndex dataB2 wLen2 timeout
  let call := UCall.ctrl_transfer bm_request_type b_request wValue wIndex dataB2 wLen2 timeout
  if out.1 < 0 then
    (.error (.ioError (out.1.natAbs : Int) "USB control transfer failed"), [call])
  else if bm_request_type &&& 0x80 = 0x80 then
    (.ok (.payload out.2), [call])
  else
    (.ok (.transferred out.1), [call])

/-- The loop body of `Device.set_led` for `LED.all`: one
`ctrl_transfer(0x40, req, x.value, 0, 0, 0, 100)` per listed LED, stopping at
the first raised exception. -/
def Device.setLedLoop (ut : CtrlOracle) (req : Nat) :
    List LED → Except PyErr Unit × List UCall
  | [] => (.ok (), [])
  | x :: rest =>
      let c := Device.ctrl_transfer ut 0x40 req x.value 0 "0" 0 100
      match c.1 with
      | .error e => (.error e, c.2)
      | .ok _ =>
          let r2 := Device.setLedLoop ut req rest
          (r2.1, c.2 ++ r2.2)

/-- `Device.set_led(led, status)`: rejects a non-member with `ValueError`
before any transfer; picks request `0x50` (on) or `0x51` (off); for
`LED.all` iterates `(l for l in LED if l != LED.all)`, otherwise issues a
single transfer with the LED's value. The `led` argument is `some` member or
`none` for a value outside the enum. -/
def Device.set_led (ut : CtrlOracle) (led : Option LED) (status : Bool) :
    Except PyErr Unit × List UCall :=
  match led with
  | none => (.error (.valueError "invalid LED"), [])
  | some l =>
      let req : Nat := if status then 0x50 else 0x51
      if l = LED.all then
        Device.setLedLoop ut req (LED.members.filter (fun x => x ≠ LED.all))
      else
        let c := Device.ctrl_transfer ut 0x40 req l.value 0 "0" 0 100
        (c.1.map (fun _ => ()), c.2)

/-! ## Channel -/

/-- The per-device state the underlying mode calls act on. -/
structure CppDevState where
  running : Bool
  mode0 : Int
  mode1 : Int
deriving DecidableEq, Repr

/-- Modelled from the spec: the underlying C++ `smu::Device::set_mode`
(implementation not under the binding source) "fails with an InvalidState
error if the session/device is currently RUNNING" (a nonzero errcode),
and otherwise records the mode for the channel and returns 0. -/
def cppSetMode (s : CppDevState) (channel : Nat) (mode : Int) : CppDevState × Int :=
  if s.running then (s, 1)
  else if channel = 0 then ({ s with mode0 := mode }, 0)
  else ({ s with mode1 := mode }, 0)

/-- Modelled from the spec: the underlying C++ `smu::Device::get_mode`
returns the integer mode currently recorded for the channel. -/
def cppGetMode (s : CppDevState) (channel : Nat) : Int :=
  if channel = 0 then s.mode0 else s.mode1

/-- The setter of `Channel.mode`: rejects a non-member of `Mode` with
`ValueError` before any underlying call, then calls the underlying
`set_mode(chan, mode.value)` and raises `DeviceError` on a nonzero errcode.
Returns the post-call device state on success, paired with the trace of
underlying calls. -/
def Channel.modeSet (s : CppDevState) (channel : Nat) (mode : Option Mode) :
    Except PyErr CppDevState × List UCall :=
  match mode with
  | none => (.error (.valueError "invalid mode"), [])
  | some m =>
      let res := cppSetMode s channel m.value
      if res.2 ≠ 0 then
        (.error (.deviceError "failed setting mode" (some res.2)), [.set_mode channel m.value])
      else
        (.ok res.1, [.set_mode channel m.value])

/-- The getter of `Channel.mode`: `Mode(self.dev._device.get_mode(self.chan))`;
the `Mode(...)` conversion raises `ValueError` on an unmapped value. -/
def Channel.modeGet (s : CppDevState) (channel : Nat) : Except PyErr Mode :=
  match Mode.ofValue (cppGetMode s channel) with
  | none => .error (.valueError "invalid mode value")
  | some m => .ok m

/-- Python `x[chan]` on a `Sample` (a pair of pairs), for the two channel
indices a `Device` constructs its channels with. -/
def pyIndex2 (s : Sample) (chan : Fin 2) : FVal × FVal :=
  if chan.val = 0 then s.1 else s.2

/-- `Channel.read(num_samples, timeout)`:
`[x[self.chan] for x in self.dev.read(num_samples, timeout)]`. -/
def Channel.read (uread : Nat → Int → CppReadOutcome) (chan : Fin 2)
    (num_samples : Nat) (timeout : Int) : Except PyErr (List (FVal × FVal)) :=
  match Device.read uread num_samples timeout with
  | .error e => .error e
  | .ok xs => .ok (xs.map (fun x => pyIndex2 x chan))

/-- `Channel.write(data, cyclic)`: `self.dev.write(data, self.chan, cyclic)`. -/
def Channel.write (uwrite : List FVal → Nat → Bool → CppWriteOutcome)
    (errcodeInit : Int) (chan : Fin 2) (data : List FVal) (cyclic : Bool) :
    Except PyErr Unit :=
  Device.write uwrite errcodeInit data chan.val cyclic

/-- `Channel.get_samples(num_samples)`:
`[x[self.chan] for x in self.dev.get_samples(num_samples)]`. -/
def Channel.get_samples (uread : Nat → Int → CppReadOutcome) (chan : Fin 2)
    (num_samples : Nat) : Except PyErr (List (FVal × FVal)) :=
  match Device.get_samples uread num_samples with
  | .error e => .error e
  | .ok xs => .ok (xs.map (fun x => pyIndex2 x chan))

end Pysmu

/-! ## Theorems -/

namespace Pysmu

/-- `Mode(m.value)` recovers the member `m`. -/
theorem Mode.ofValue_value (m : Mode) : Mode.ofValue m.value = some m := by
  cases m <;> rfl

/-- An OUT control transfer (`0x80` bit clear) always records exactly one
underlying call, with the encoded data and a forced zero `wLength`. -/
theorem ctrl_transfer_out_trace (ut : CtrlOracle) (bm b v i2 : Nat) (data : String)
    (wLength timeout : Nat) (h : bm &&& 0x80 ≠ 0x80) :
    (Device.ctrl_transfer ut bm b v i2 data wLength timeout).2
      = [UCall.ctrl_transfer bm b v i2 (pyEncode data) 0 timeout] := by
  unfold Device.ctrl_transfer
  simp only [h, false_and, if_false, ite_false]
  split <;> simp

/-- An OUT control transfer with a nonnegative transport result returns the
byte count and records the single underlying call. -/
theorem ctrl_transfer_out_eq (ut : CtrlOracle) (bm b v i2 : Nat) (data : String)
    (wLength timeout : Nat) (h : bm &&& 0x80 ≠ 0x80)
    (hr : 0 ≤ (ut bm b v i2 (pyEncode data) 0 timeout).1) :
    Device.ctrl_transfer ut bm b v i2 data wLength timeout
      = (.ok (.transferred (ut bm b v i2 (pyEncode data) 0 timeout).1),
         [UCall.ctrl_transfer bm b v i2 (pyEncode data) 0 timeout]) := by
  unfold Device.ctrl_transfer
  simp [h, not_lt.mpr hr]

/-- Claim C1: with `timeout == -1` and the session not cancelled or ended,
`Device.read(num_samples, -1)` — and equivalently
`Device.get_samples(num_samples)` — returns a list of exactly `num_samples`
samples, for every `num_samples ≥ 0`. The blocking underlying read is the
spec-modelled `cppReadBlocking` invoked with `cancelled = false`. -/
theorem read_blocking_returns_exactly_num_samples
    (supply : Nat → RawSample) (avail num_samples : Nat) :
    ∃ samples : List Sample,
      Device.read (cppReadBlocking supply false avail) num_samples (-1)
        = .ok samples ∧
      Device.get_samples (cppReadBlocking supply false avail) num_samples
        = .ok samples ∧
      samples.length = num_samples := by
  refine ⟨((List.range num_samples).map supply).map toSample, ?_, ?_, ?_⟩
  · have h : ¬ ((num_samples : Int) < 0) := by omega
    simp [Device.read, cppReadBlocking, h]
  · have h : ¬ ((num_samples : Int) < 0) := by omega
    simp [Device.get_samples, Device.read, cppReadBlocking, h]
  · simp

/-- Claim C2 (code bug in `Device.write`): a `dropped `-prefixed overflow
`RuntimeError` from the underlying write is swallowed, but the uninitialised
`cdef int errcode` is then compared against 0, so a stale negative value
makes the call raise `DeviceError` although no write failure occurred.
`Device.read` initialises its return variable to 0 and completes as the
claim states. -/
theorem write_dropped_overflow_spurious_raise :
    Device.write (fun _ _ _ => .runtimeError "dropped 10 samples") (-1) [] 0 false
      = .error (.deviceError "failed writing to device" (some (-1))) ∧
    Device.read (fun _ _ => .runtimeError "dropped 10 samples" []) 5 0 = .ok [] := by
  constructor <;> rfl

/-- Claim C3: setting a channel's mode while the device is RUNNING raises the
binding's `DeviceError` (the nonzero-errcode rendering of the InvalidState
failure); setting it while IDLE succeeds, and a subsequent get of the
channel's mode returns the value just set. -/
theorem mode_set_rejected_running_reflected_idle
    (s : CppDevState) (channel : Nat) (m : Mode) :
    (s.running = true →
      ∃ c, (Channel.modeSet s channel (some m)).1
        = .error (.deviceError "failed setting mode" c)) ∧
    (s.running = false →
      ∃ s2, (Channel.modeSet s channel (some m)).1 = .ok s2 ∧
        Channel.modeGet s2 channel = .ok m) := by
  constructor
  · intro h
    refine ⟨some 1, ?_⟩
    simp [Channel.modeSet, cppSetMode, h]
  · intro h
    by_cases hc : channel = 0
    · refine ⟨{ s with mode0 := m.value }, ?_, ?_⟩
      · simp [Channel.modeSet, cppSetMode, h, hc]
      · simp [Channel.modeGet, cppGetMode, hc, Mode.ofValue_value]
    · refine ⟨{ s with mode1 := m.value }, ?_, ?_⟩
      · simp [Channel.modeSet, cppSetMode, h, hc]
      · simp [Channel.modeGet, cppGetMode, hc, Mode.ofValue_value]

/-- Claim C3 witness: a RUNNING device rejects the mode set, an IDLE one
accepts it and reflects it. -/
theorem mode_set_witness :
    (∃ c, (Channel.modeSet ⟨true, 0, 0⟩ 0 (some .SVMI)).1
        = .error (.deviceError "failed setting mode" c)) ∧
    (∃ s2, (Channel.modeSet ⟨false, 0, 0⟩ 0 (some .SVMI)).1 = .ok s2 ∧
        Channel.modeGet s2 0 = .ok .SVMI) :=
  ⟨(mode_set_rejected_running_reflected_idle ⟨true, 0, 0⟩ 0 .SVMI).1 rfl,
   (mode_set_rejected_running_reflected_idle ⟨false, 0, 0⟩ 0 .SVMI).2 rfl⟩

/-- Claim C4: every invalid argument — a negative `sample_rate` to
`Session.configure`, a negative `samples` count to `Session.run` or
`Session.start`, a non-member of `Mode` assigned to `Channel.mode`, or a
non-member of `LED` passed to `Device.set_led` — raises `ValueError`
synchronously with an empty trace of underlying calls, so no transport or
device call is made and no state is touched. -/
theorem invalid_arguments_raise_valueerror_before_transport
    (ucfg urun ustart : Int → Int) (s : CppDevState) (channel : Nat)
    (ut : CtrlOracle) (status : Bool) (rate nrun nstart : Int) :
    (rate < 0 → Session.configure ucfg rate
       = (.error (.valueError s!"invalid sample rate: {rate}"), [])) ∧
    (nrun < 0 → Session.run urun nrun
       = (.error (.valueError s!"invalid number of samples: {nrun}"), [])) ∧
    (nstart < 0 → Session.start ustart nstart
       = (.error (.valueError s!"invalid number of samples: {nstart}"), [])) ∧
    Channel.modeSet s channel none = (.error (.valueError "invalid mode"), []) ∧
    Device.set_led ut none status = (.error (.valueError "invalid LED"), []) := by
  refine ⟨fun h => ?_, fun h => ?_, fun h => ?_, rfl, rfl⟩ <;>
    simp [Session.configure, Session.run, Session.start, h]

/-- Claim C4 witness: the rejections at concrete invalid arguments. -/
theorem invalid_arguments_witness :
    Session.configure (fun _ => 0) (-1)
      = (.error (.valueError s!"invalid sample rate: {(-1 : Int)}"), []) ∧
    Session.run (fun _ => 0) (-2)
      = (.error (.valueError s!"invalid number of samples: {(-2 : Int)}"), []) ∧
    Session.start (fun _ => 0) (-3)
      = (.error (.valueError s!"invalid number of samples: {(-3 : Int)}"), []) ∧
    Channel.modeSet ⟨false, 0, 0⟩ 0 none = (.error (.valueError "invalid mode"), []) ∧
    Device.set_led (fun _ _ _ _ _ _ _ => (0, [])) none true
      = (.error (.valueError "invalid LED"), []) := by
  have h := invalid_arguments_raise_valueerror_before_transport
    (fun _ => 0) (fun _ => 0) (fun _ => 0) ⟨false, 0, 0⟩ 0
    (fun _ _ _ _ _ _ _ => (0, [])) true (-1) (-2) (-3)
  exact ⟨h.1 (by decide), h.2.1 (by decide), h.2.2.1 (by decide), h.2.2.2.1, h.2.2.2.2⟩

/-- Claim C5: the `Channel` layer is pure delegation with the bound channel
index: `Channel.read(n, t)` is the `pyIndex2`-projection of each sample of
`Device.read(n, t)`, `Channel.write(data, cyclic)` is exactly
`Device.write(data, chan, cyclic)`, and `Channel.get_samples(n)` is the same
projection of `Device.get_samples(n)`. -/
theorem channel_pure_delegation (uread : Nat → Int → CppReadOutcome)
    (uwrite : List FVal → Nat → Bool → CppWriteOutcome) (errcodeInit : Int)
    (chan : Fin 2) (num_samples : Nat) (timeout : Int)
    (data : List FVal) (cyclic : Bool) :
    Channel.read uread chan num_samples timeout
      = (Device.read uread num_samples timeout).map (List.map (fun x => pyIndex2 x chan)) ∧
    Channel.write uwrite errcodeInit chan data cyclic
      = Device.write uwrite errcodeInit data chan.val cyclic ∧
    Channel.get_samples uread chan num_samples
      = (Device.get_samples uread num_samples).map (List.map (fun x => pyIndex2 x chan)) := by
  refine ⟨?_, rfl, ?_⟩
  · cases h : Device.read uread num_samples timeout <;>
      simp [Channel.read, h, Except.map]
  · cases h : Device.get_samples uread num_samples <;>
      simp [Channel.get_samples, h, Except.map]

/-- Claim C7: `Session.end` run from `__dealloc__` never propagates a failure
of the underlying end, while an explicit `Session.end()` call raises
`SessionError` exactly when the underlying end reports a nonzero error
code. -/
theorem end_teardown_swallows_explicit_raises (uend : Int) :
    Session.dealloc uend = .ok () ∧
    (uend ≠ 0 → Session.endSession uend
       = .error (.sessionError "failed ending session stream" uend)) ∧
    (uend = 0 → Session.endSession uend = .ok ()) := by
  refine ⟨rfl, fun h => ?_, fun h => ?_⟩ <;> simp [Session.endSession, cppEnd, h]

/-- Claim C7 witness: teardown swallows the errcode 3 that an explicit call
turns into `SessionError`; errcode 0 succeeds. -/
theorem end_teardown_witness :
    Session.dealloc 3 = .ok () ∧
    Session.endSession 3 = .error (.sessionError "failed ending session stream" 3) ∧
    Session.endSession 0 = .ok () :=
  ⟨(end_teardown_swallows_explicit_raises 3).1,
   (end_teardown_swallows_explicit_raises 3).2.1 (by decide),
   (end_teardown_swallows_explicit_raises 0).2.2 rfl⟩

/-- Claim C9: `Device.get_samples(num_samples)` is exactly
`Device.read(num_samples, -1)` — same results, same raised errors — and
`Channel.get_samples(num_samples)` is the channel projection of
`Device.get_samples(num_samples)` (equivalently, `Channel.read` at
timeout `-1`). -/
theorem get_samples_refines_read (uread : Nat → Int → CppReadOutcome)
    (chan : Fin 2) (num_samples : Nat) :
    Device.get_samples uread num_samples = Device.read uread num_samples (-1) ∧
    Channel.get_samples uread chan num_samples
      = (Device.get_samples uread num_samples).map (List.map (fun x => pyIndex2 x chan)) ∧
    Channel.get_samples uread chan num_samples
      = Channel.read uread chan num_samples (-1) := by
  refine ⟨rfl, ?_, rfl⟩
  cases h : Device.get_samples uread num_samples <;>
    simp [Channel.get_samples, h, Except.map]

/-- Claim C6 counterexample: when the transport returns the negative status
code `-5`, `Device.ctrl_transfer` raises `IOError` carrying `abs(-5) = 5`,
which is not the transport's negative status code `-5`. -/
theorem ctrl_transfer_error_code_counterexample :
    (Device.ctrl_transfer (fun _ _ _ _ _ _ _ => (-5, [])) 0x40 0 0 0 "0" 0 100).1
      = .error (.ioError 5 "USB control transfer failed") ∧
    (5 : Int) ≠ -5 := by
  constructor
  · rfl
  · decide

/-- Claim C6 (amended): whenever the transport returns a negative result `r`,
`Device.ctrl_transfer` raises `IOError` carrying the absolute value of that
negative status code; on success it returns the number of bytes transferred
for an OUT transfer (`0x80` bit clear) and the received buffer contents for
an IN transfer (`0x80` bit set). -/
theorem ctrl_transfer_status_and_success (r : Int) (bufAfter : List Nat)
    (bm b v i2 : Nat) (data : String) (wLength timeout : Nat) :
    (r < 0 →
      (Device.ctrl_transfer (fun _ _ _ _ _ _ _ => (r, bufAfter)) bm b v i2 data wLength timeout).1
        = .error (.ioError (r.natAbs : Int) "USB control transfer failed")) ∧
    (0 ≤ r → bm &&& 0x80 = 0x80 →
      (Device.ctrl_transfer (fun _ _ _ _ _ _ _ => (r, bufAfter)) bm b v i2 data wLength timeout).1
        = .ok (.payload bufAfter)) ∧
    (0 ≤ r → bm &&& 0x80 ≠ 0x80 →
      (Device.ctrl_transfer (fun _ _ _ _ _ _ _ => (r, bufAfter)) bm b v i2 data wLength timeout).1
        = .ok (.transferred r)) := by
  refine ⟨fun h => ?_, fun h hin => ?_, fun h hout => ?_⟩ <;>
    simp [Device.ctrl_transfer, not_lt.mpr, *]

/-- Claim C6 witness: the three cases at concrete transports. -/
theorem ctrl_transfer_status_witness :
    (Device.ctrl_transfer (fun _ _ _ _ _ _ _ => ((-5 : Int), [])) 0x40 0 0 0 "ab" 0 100).1
      = .error (.ioError (((-5 : Int)).natAbs : Int) "USB control transfer failed") ∧
    (Device.ctrl_transfer (fun _ _ _ _ _ _ _ => ((2 : Int), [9, 9])) 0x80 0 0 0 "ab" 2 100).1
      = .ok (.payload [9, 9]) ∧
    (Device.ctrl_transfer (fun _ _ _ _ _ _ _ => ((2 : Int), [])) 0x40 0 0 0 "ab" 0 100).1
      = .ok (.transferred 2) :=
  ⟨(ctrl_transfer_status_and_success (-5) [] 0x40 0 0 0 "ab" 0 100).1 (by decide),
   (ctrl_transfer_status_and_success 2 [9, 9] 0x80 0 0 0 "ab" 2 100).2.1 (by decide) (by decide),
   (ctrl_transfer_status_and_success 2 [] 0x40 0 0 0 "ab" 0 100).2.2 (by decide) (by decide)⟩

/-- Claim C8: `Device.set_led` is implemented purely as `ctrl_transfer`
calls and keeps no state of its own (it is a pure function of the transport
oracle whose entire effect is its trace): for a single LED it issues exactly
one transfer with request `0x50` (on) or `0x51` (off) and the LED's value;
for `LED.all` it issues exactly one such transfer per individual LED (red,
green, blue), each with the same request. The transport is assumed to report
success, so no transfer aborts the sequence. -/
theorem set_led_is_ctrl_transfers (ut : CtrlOracle) (status : Bool) (l : LED)
    (h : ∀ bm b v i2 d wl t, 0 ≤ (ut bm b v i2 d wl t).1) :
    (l ≠ LED.all →
      (Device.set_led ut (some l) status).2
        = [UCall.ctrl_transfer 0x40 (if status then 0x50 else 0x51) l.value 0
            (pyEncode "0") 0 100]) ∧
    (Device.set_led ut (some LED.all) status).2
      = [UCall.ctrl_transfer 0x40 (if status then 0x50 else 0x51) 47 0 (pyEncode "0") 0 100,
         UCall.ctrl_transfer 0x40 (if status then 0x50 else 0x51) 29 0 (pyEncode "0") 0 100,
         UCall.ctrl_transfer 0x40 (if status then 0x50 else 0x51) 28 0 (pyEncode "0") 0 100] := by
  have hout : ((0x40 : Nat) &&& 0x80 ≠ 0x80) := by decide
  constructor
  · intro hne
    cases l with
    | all => exact absurd rfl hne
    | red =>
        simp [Device.set_led, LED.value,
          ctrl_transfer_out_trace ut 0x40 _ 47 0 "0" 0 100 hout]
    | green =>
        simp [Device.set_led, LED.value,
          ctrl_transfer_out_trace ut 0x40 _ 29 0 "0" 0 100 hout]
    | blue =>
        simp [Device.set_led, LED.value,
          ctrl_transfer_out_trace ut 0x40 _ 28 0 "0" 0 100 hout]
  · cases status with
    | false =>
        have e1 := ctrl_transfer_out_eq ut 0x40 0x51 47 0 "0" 0 100 hout (h _ _ _ _ _ _ _)
        have e2 := ctrl_transfer_out_eq ut 0x40 0x51 29 0 "0" 0 100 hout (h _ _ _ _ _ _ _)
        have e3 := ctrl_transfer_out_eq ut 0x40 0x51 28 0 "0" 0 100 hout (h _ _ _ _ _ _ _)
        simp [Device.set_led, LED.members, Device.setLedLoop, LED.value, e1, e2, e3]
    | true =>
        have e1 := ctrl_transfer_out_eq ut 0x40 0x50 47 0 "0" 0 100 hout (h _ _ _ _ _ _ _)
        have e2 := ctrl_transfer_out_eq ut 0x40 0x50 29 0 "0" 0 100 hout (h _ _ _ _ _ _ _)
        have e3 := ctrl_transfer_out_eq ut 0x40 0x50 28 0 "0" 0 100 hout (h _ _ _ _ _ _ _)
        simp [Device.set_led, LED.members, Device.setLedLoop, LED.value, e1, e2, e3]

/-- Claim C8 witness: a single red-LED on command issues one transfer with
request `0x50` and value 47; `LED.all` issues the red, green and blue
transfers, on an always-succeeding transport. -/
theorem set_led_witness :
    (Device.set_led (fun _ _ _ _ _ _ _ => (0, [])) (some LED.red) true).2
      = [UCall.ctrl_transfer 0x40 0x50 47 0 (pyEncode "0") 0 100] ∧
    (Device.set_led (fun _ _ _ _ _ _ _ => (0, [])) (some LED.all) true).2
      = [UCall.ctrl_transfer 0x40 0x50 47 0 (pyEncode "0") 0 100,
         UCall.ctrl_transfer 0x40 0x50 29 0 (pyEncode "0") 0 100,
         UCall.ctrl_transfer 0x40 0x50 28 0 (pyEncode "0") 0 100] :=
  ⟨(set_led_is_ctrl_transfers (fun _ _ _ _ _ _ _ => (0, [])) true LED.red
      (fun _ _ _ _ _ _ _ => le_refl 0)).1 (by decide),
   (set_led_is_ctrl_transfers (fun _ _ _ _ _ _ _ => (0, [])) true LED.all
      (fun _ _ _ _ _ _ _ => le_refl 0)).2⟩

/-- Claim C10: for an OUT transfer (`0x80` bit of `bm_request_type` clear),
the `wLength` actually passed to the transport is `0` regardless of the
caller-supplied `wLength`, and the whole call result is independent of the
caller-supplied `wLength`. -/
theorem out_transfer_forces_wlength_zero (ut : CtrlOracle) (bm b v i2 : Nat)
    (data : String) (wLength wLength2 timeout : Nat)
    (h : bm &&& 0x80 ≠ 0x80) :
    (Device.ctrl_transfer ut bm b v i2 data wLength timeout).2
      = [UCall.ctrl_transfer bm b v i2 (pyEncode data) 0 timeout] ∧
    Device.ctrl_transfer ut bm b v i2 data wLength timeout
      = Device.ctrl_transfer ut bm b v i2 data wLength2 timeout := by
  constructor
  · exact ctrl_transfer_out_trace ut bm b v i2 data wLength timeout h
  · unfold Device.ctrl_transfer
    simp [h]

/-- Claim C10 witness: an OUT transfer with caller `wLength = 7` records a
transport call with `wLength = 0` and behaves exactly as with caller
`wLength = 3`. -/
theorem out_transfer_witness :
    (Device.ctrl_transfer (fun _ _ _ _ _ _ _ => (0, [])) 0x40 1 2 3 "abc" 7 100).2
      = [UCall.ctrl_transfer 0x40 1 2 3 (pyEncode "abc") 0 100] ∧
    Device.ctrl_transfer (fun _ _ _ _ _ _ _ => (0, [])) 0x40 1 2 3 "abc" 7 100
      = Device.ctrl_transfer (fun _ _ _ _ _ _ _ => (0, [])) 0x40 1 2 3 "abc" 3 100 :=
  out_transfer_forces_wlength_zero (fun _ _ _ _ _ _ _ => (0, [])) 0x40 1 2 3 "abc" 7 3 100
    (by decide)

end Pysmu
